import Mathlib

/-!
Verification of the product-content generation job orchestrator.

The definitions below are a shallow embedding of the orchestrator core:
the in-memory job store (`src/src/api/jobs/queue.ts`, exported through
`src/src/frontend/index.ts`), the job processor (`processJob`), the public
API surface (`src/src/api/index.ts`) and the batch generation loops of the
ad/package generators.  Opaque AI payloads (analysis records, generated
images, text bundles) are modelled as natural numbers; byte buffers as
`List Nat`; timestamps as `Nat` milliseconds.  External capability calls
are modelled by explicit outcome oracles, and the asynchronous callback
bus by returning, from every store mutation, the list of
(subscriber-token, job-snapshot) events it delivers.
-/

namespace PkgGen

/-- Job status as in `types.ts` (`pending | processing | completed | failed`). -/
inductive JobStatus
  | pending
  | processing
  | completed
  | failed
deriving DecidableEq, Repr

/-- Per-stage status (`pending | processing | done | failed | skipped`). -/
inductive StepStatus
  | pending
  | processing
  | done
  | failed
  | skipped
deriving DecidableEq, Repr

/-- The four pipeline stages. -/
inductive StageName
  | analysis
  | packages
  | ads
  | texts
deriving DecidableEq, Repr

/-- Progress map: one `StepStatus` per stage, as the `JobProgress` record. -/
structure JobProgress where
  analysis : StepStatus
  packages : StepStatus
  ads : StepStatus
  texts : StepStatus
deriving DecidableEq, Repr

/-- Submission options (`GenerateOptions`).  Optional fields are `Option`;
the three skip flags collapse `undefined` to `false` as JS truthiness does. -/
structure GenerateOptions where
  brandName : Option String
  productName : Option String
  packageVariations : Option Nat
  adPlatforms : Option (List String)
  skipPackages : Bool
  skipAds : Bool
  skipTexts : Bool
deriving DecidableEq, Repr

/-- Result bundle (`JobResult`); opaque payloads modelled as numbers. -/
structure JobResult where
  analysis : Option Nat
  packages : Option (List Nat)
  ads : Option (List Nat)
  texts : Option Nat
  downloadUrl : Option String
deriving DecidableEq, Repr

/-- A job record, as stored in the in-memory map. -/
structure Job where
  id : String
  status : JobStatus
  progress : JobProgress
  createdAt : Nat
  updatedAt : Nat
  completedAt : Option Nat
  error : Option String
  result : Option JobResult
  options : GenerateOptions
deriving DecidableEq, Repr

/-- Association-list lookup on string keys (the `Map.get` of the store). -/
def lookupA {α : Type} : List (String × α) → String → Option α
  | [], _ => none
  | (k, v) :: rest, key => if k = key then some v else lookupA rest key

/-- Association-list insert/replace (the `Map.set` of the store). -/
def setA {α : Type} : List (String × α) → String → α → List (String × α)
  | [], key, v => [(key, v)]
  | (k, w) :: rest, key, v =>
    if k = key then (key, v) :: rest else (k, w) :: setA rest key v

/-- Association-list removal (the `Map.delete` of the store). -/
def removeA {α : Type} (l : List (String × α)) (key : String) : List (String × α) :=
  l.filter (fun e => e.1 ≠ key)

/-- The in-memory state of `queue.ts`: the `jobs` map and the
`progressCallbacks` map (subscribers modelled as numeric tokens). -/
structure Store where
  jobs : List (String × Job)
  subs : List (String × List Nat)
deriving DecidableEq, Repr

/-- `getJob`: fetch a job record. -/
def getJob (s : Store) (id : String) : Option Job :=
  lookupA s.jobs id

/-- Write a job record back under its map key (`jobs.set`, and the
in-place mutation of a fetched record); subscriber map untouched. -/
def putAt (s : Store) (id : String) (j : Job) : Store :=
  ⟨setA s.jobs id j, s.subs⟩

/-- Subscriber tokens currently registered for a job id. -/
def subsOf (s : Store) (id : String) : List Nat :=
  match lookupA s.subs id with
  | some ts => ts
  | none => []

/-- `notifyProgress`: deliver the snapshot to every registered callback.
Each delivered event is a (token, snapshot) pair. -/
def notifyProgress (s : Store) (j : Job) : List (Nat × Job) :=
  (subsOf s j.id).map (fun t => (t, j))

/-- `createJob`: materialize a fresh record in `pending`, with the progress
map initialised to `skipped` where the options request it. -/
def createJob (s : Store) (id : String) (now : Nat) (opts : GenerateOptions) :
    Store × Job :=
  let j : Job :=
    { id := id
      status := JobStatus.pending
      progress :=
        { analysis := StepStatus.pending
          packages := if opts.skipPackages then StepStatus.skipped else StepStatus.pending
          ads := if opts.skipAds then StepStatus.skipped else StepStatus.pending
          texts := if opts.skipTexts then StepStatus.skipped else StepStatus.pending }
      createdAt := now
      updatedAt := now
      completedAt := none
      error := none
      result := none
      options := opts }
  (putAt s id j, j)

/-- `updateJobStatus`: set the job status, bump `updatedAt`, stamp
`completedAt` on terminal transitions, then notify. -/
def updateJobStatus (s : Store) (id : String) (st : JobStatus) (now : Nat) :
    Store × List (Nat × Job) :=
  match getJob s id with
  | none => (s, [])
  | some j =>
    let j2 : Job :=
      { j with
        status := st
        updatedAt := now
        completedAt :=
          match st with
          | JobStatus.completed => some now
          | JobStatus.failed => some now
          | _ => j.completedAt }
    let s2 := putAt s id j2
    (s2, notifyProgress s2 j2)

/-- Update one entry of the progress map. -/
def setStage (p : JobProgress) (st : StageName) (v : StepStatus) : JobProgress :=
  match st with
  | StageName.analysis => { p with analysis := v }
  | StageName.packages => { p with packages := v }
  | StageName.ads => { p with ads := v }
  | StageName.texts => { p with texts := v }

/-- `updateJobProgress`: set one stage status, bump `updatedAt`, notify. -/
def updateJobProgress (s : Store) (id : String) (step : StageName)
    (v : StepStatus) (now : Nat) : Store × List (Nat × Job) :=
  match getJob s id with
  | none => (s, [])
  | some j =>
    let j2 : Job := { j with progress := setStage j.progress step v, updatedAt := now }
    let s2 := putAt s id j2
    (s2, notifyProgress s2 j2)

/-- `setJobResult`: store the result bundle and bump `updatedAt`.  The
source performs no `notifyProgress` call here, so no events are emitted. -/
def setJobResult (s : Store) (id : String) (r : JobResult) (now : Nat) :
    Store × List (Nat × Job) :=
  match getJob s id with
  | none => (s, [])
  | some j =>
    let j2 : Job := { j with result := some r, updatedAt := now }
    (putAt s id j2, [])

/-- `setJobError`: record the error, force status `failed`, stamp both
timestamps, then notify. -/
def setJobError (s : Store) (id : String) (msg : String) (now : Nat) :
    Store × List (Nat × Job) :=
  match getJob s id with
  | none => (s, [])
  | some j =>
    let j2 : Job :=
      { j with
        error := some msg
        status := JobStatus.failed
        updatedAt := now
        completedAt := some now }
    let s2 := putAt s id j2
    (s2, notifyProgress s2 j2)

/-- `deleteJob`: clear the job's subscriber set and remove the record;
returns whether a record was present. -/
def deleteJob (s : Store) (id : String) : Store × Bool :=
  (⟨removeA s.jobs id, removeA s.subs id⟩, (lookupA s.jobs id).isSome)

/-- Terminal test used by the cleanup sweep. -/
def isTerminal (st : JobStatus) : Bool :=
  match st with
  | JobStatus.completed => true
  | JobStatus.failed => true
  | _ => false

/-- One record is reaped when `age > maxAgeMs` and the job is terminal. -/
def isExpired (now maxAgeMs : Nat) (j : Job) : Bool :=
  decide (maxAgeMs < now - j.createdAt) && isTerminal j.status

/-- The loop body of `cleanupOldJobs`: walk the entry snapshot, deleting
matching records and counting them. -/
def cleanupList (now maxAgeMs : Nat) :
    List (String × Job) → Store → Store × Nat
  | [], s => (s, 0)
  | e :: rest, s =>
    if isExpired now maxAgeMs e.2 then
      let s2 := (deleteJob s e.1).1
      let r := cleanupList now maxAgeMs rest s2
      (r.1, r.2 + 1)
    else cleanupList now maxAgeMs rest s

/-- `cleanupOldJobs`: one full reaper pass over the store. -/
def cleanupOldJobs (s : Store) (now maxAgeMs : Nat) : Store × Nat :=
  cleanupList now maxAgeMs s.jobs s

/-- `subscribeProgress`: register the callback token, then replay the
current state synchronously when the job exists. -/
def subscribeProgress (s : Store) (jobId : String) (tok : Nat) :
    Store × List (Nat × Job) :=
  let s2 : Store := ⟨s.jobs, setA s.subs jobId (subsOf s jobId ++ [tok])⟩
  match getJob s2 jobId with
  | some j => (s2, [(tok, j)])
  | none => (s2, [])

/-- JS `||` on an optional count: `undefined` and `0` both fall back. -/
def jsOrNat (v : Option Nat) (d : Nat) : Nat :=
  match v with
  | none => d
  | some n => if n = 0 then d else n

/-- `options.adPlatforms?.length || 4`: absent list and empty list both
produce the default count 4. -/
def jsPlatformCount (v : Option (List String)) : Nat :=
  match v with
  | none => 4
  | some l => if l.length = 0 then 4 else l.length

/-- `estimateProcessingTime`: 10 s base, 15 s per package variation,
10 s per ad platform, 10 s for texts, each term dropped when skipped. -/
def estimateProcessingTime (o : GenerateOptions) : Nat :=
  10 + (if o.skipPackages then 0 else jsOrNat o.packageVariations 3 * 15)
     + (if o.skipAds then 0 else jsPlatformCount o.adPlatforms * 10)
     + (if o.skipTexts then 0 else 10)

/-- Outcome of one external capability run: the produced value or the
message of the raised error. -/
inductive Outcome (α : Type)
  | ok (v : α)
  | err (msg : String)
deriving DecidableEq, Repr

/-- Oracles fixing how the four stage runs of one job behave: the
analysis record, the package-design list, the ad list, the text bundle. -/
structure StageRuns where
  analysisRun : Outcome Nat
  packagesRun : Outcome (List Nat)
  adsRun : Outcome (List Nat)
  textsRun : Outcome Nat
deriving DecidableEq, Repr

/-- Processor-level state: the job store plus the `processingJobs` set. -/
structure ProcState where
  store : Store
  processing : List String
deriving DecidableEq, Repr

/-- `processJob`: run the pipeline for one job.  Analysis failure aborts
into the catch block (`setJobError`); each post-analysis stage runs only
when not skipped, marks itself `done`/`failed`, and contributes its field
to the result bundle only on success.  Returns the new state and the
complete event trace. -/
def processJob (ps : ProcState) (job : Job) (runs : StageRuns) (t : Nat) :
    ProcState × List (Nat × Job) :=
  if ps.processing.contains job.id then (ps, [])
  else
    let procs := job.id :: ps.processing
    let step1 := updateJobStatus ps.store job.id JobStatus.processing t
    let step2 := updateJobProgress step1.1 job.id StageName.analysis StepStatus.processing t
    match runs.analysisRun with
    | Outcome.err m =>
      let step3 := updateJobProgress step2.1 job.id StageName.analysis StepStatus.failed t
      let step4 := setJobError step3.1 job.id ("画像分析に失敗: " ++ m) t
      (⟨step4.1, procs.filter (fun x => x ≠ job.id)⟩,
        step1.2 ++ step2.2 ++ step3.2 ++ step4.2)
    | Outcome.ok a =>
      let step3 := updateJobProgress step2.1 job.id StageName.analysis StepStatus.done t
      let pkg :=
        if job.options.skipPackages then
          (step3.1, ([] : List (Nat × Job)), (none : Option (List Nat)))
        else
          let p1 := updateJobProgress step3.1 job.id StageName.packages StepStatus.processing t
          match runs.packagesRun with
          | Outcome.ok v =>
            let p2 := updateJobProgress p1.1 job.id StageName.packages StepStatus.done t
            (p2.1, p1.2 ++ p2.2, some v)
          | Outcome.err _ =>
            let p2 := updateJobProgress p1.1 job.id StageName.packages StepStatus.failed t
            (p2.1, p1.2 ++ p2.2, none)
      let ads :=
        if job.options.skipAds then
          (pkg.1, ([] : List (Nat × Job)), (none : Option (List Nat)))
        else
          let a1 := updateJobProgress pkg.1 job.id StageName.ads StepStatus.processing t
          match runs.adsRun with
          | Outcome.ok v =>
            let a2 := updateJobProgress a1.1 job.id StageName.ads StepStatus.done t
            (a2.1, a1.2 ++ a2.2, some v)
          | Outcome.err _ =>
            let a2 := updateJobProgress a1.1 job.id StageName.ads StepStatus.failed t
            (a2.1, a1.2 ++ a2.2, none)
      let txt :=
        if job.options.skipTexts then
          (ads.1, ([] : List (Nat × Job)), (none : Option Nat))
        else
          let x1 := updateJobProgress ads.1 job.id StageName.texts StepStatus.processing t
          match runs.textsRun with
          | Outcome.ok v =>
            let x2 := updateJobProgress x1.1 job.id StageName.texts StepStatus.done t
            (x2.1, x1.2 ++ x2.2, some v)
          | Outcome.err _ =>
            let x2 := updateJobProgress x1.1 job.id StageName.texts StepStatus.failed t
            (x2.1, x1.2 ++ x2.2, none)
      let bundle : JobResult :=
        { analysis := some a
          packages := pkg.2.2
          ads := ads.2.2
          texts := txt.2.2
          downloadUrl := some ("/api/v1/download/" ++ job.id) }
      let stepR := setJobResult txt.1 job.id bundle t
      let stepC := updateJobStatus stepR.1 job.id JobStatus.completed t
      (⟨stepC.1, procs.filter (fun x => x ≠ job.id)⟩,
        step1.2 ++ step2.2 ++ step3.2 ++ pkg.2.1 ++ ads.2.1 ++ txt.2.1
          ++ stepR.2 ++ stepC.2)

/-- Structured validation error (`APIValidationError`): message + field tag. -/
structure APIValidationError where
  message : String
  field : String
deriving DecidableEq, Repr

/-- API configuration (`APIConfig`). -/
structure APIConfig where
  claudeApiKey : Option String
  openaiApiKey : Option String
  maxConcurrentJobs : Option Nat
deriving DecidableEq, Repr

/-- 10 MiB upper bound on image payloads. -/
def MAX_IMAGE_SIZE : Nat := 10 * 1024 * 1024

/-- JPEG magic: `FF D8`. -/
def jpegMagicBytes : List Nat := [0xff, 0xd8]

/-- PNG magic: `89 50 4E 47 0D 0A 1A 0A`. -/
def pngMagicBytes : List Nat := [0x89, 0x50, 0x4e, 0x47, 0x0d, 0x0a, 0x1a, 0x0a]

/-- ASCII `RIFF`. -/
def riffBytes : List Nat := [0x52, 0x49, 0x46, 0x46]

/-- ASCII `WEBP`. -/
def webpBytes : List Nat := [0x57, 0x45, 0x42, 0x50]

/-- `validateImageBuffer`: non-empty, at most 10 MiB, and carrying one of
the three recognized magic numbers; every rejection is tagged
`imageBuffer`. -/
def validateImageBuffer (b : List Nat) : Except APIValidationError Unit :=
  if b.length = 0 then
    Except.error ⟨"画像データが空です。", "imageBuffer"⟩
  else if MAX_IMAGE_SIZE < b.length then
    Except.error ⟨"画像サイズが大きすぎます。", "imageBuffer"⟩
  else if b.take 2 = jpegMagicBytes ∨ b.take 8 = pngMagicBytes ∨
      (b.take 4 = riffBytes ∧ (b.drop 8).take 4 = webpBytes) then
    Except.ok ()
  else
    Except.error ⟨"対応していない画像フォーマットです。", "imageBuffer"⟩

/-- Brand-name check of `validateGenerateOptions`: at most 100 chars. -/
def checkBrandName (o : GenerateOptions) : Except APIValidationError Unit :=
  match o.brandName with
  | some bn =>
    if 100 < bn.length then
      Except.error ⟨"ブランド名は100文字以内で指定してください。", "brandName"⟩
    else Except.ok ()
  | none => Except.ok ()

/-- Product-name check of `validateGenerateOptions`: at most 200 chars. -/
def checkProductName (o : GenerateOptions) : Except APIValidationError Unit :=
  match o.productName with
  | some pn =>
    if 200 < pn.length then
      Except.error ⟨"商品名は200文字以内で指定してください。", "productName"⟩
    else Except.ok ()
  | none => Except.ok ()

/-- Variation-count check of `validateGenerateOptions`: integer in [1, 10]. -/
def checkVariations (o : GenerateOptions) : Except APIValidationError Unit :=
  match o.packageVariations with
  | some v =>
    if v < 1 ∨ 10 < v then
      Except.error ⟨"バリエーション数は1〜10の範囲で指定してください。", "packageVariations"⟩
    else Except.ok ()
  | none => Except.ok ()

/-- `validateGenerateOptions`: the three option checks, in source order. -/
def validateGenerateOptions (o : GenerateOptions) : Except APIValidationError Unit := do
  checkBrandName o
  checkProductName o
  checkVariations o

/-- JS truthiness of an optional string: absent and empty are both falsy. -/
def strTruthy (v : Option String) : Bool :=
  match v with
  | none => false
  | some s => decide (s.length ≠ 0)

/-- `validateApiKeys`: the vision key is always required; the image key is
required unless both Packages and Ads are skipped. -/
def validateApiKeys (cfg : APIConfig) (o : GenerateOptions) :
    Except APIValidationError Unit :=
  if strTruthy cfg.claudeApiKey = false then
    Except.error ⟨"Claude APIキーが設定されていません。", "claudeApiKey"⟩
  else if (o.skipPackages = false ∨ o.skipAds = false) ∧ strTruthy cfg.openaiApiKey = false then
    Except.error ⟨"OpenAI APIキーが設定されていません。", "openaiApiKey"⟩
  else
    Except.ok ()

/-- Response of `startGeneration`. -/
structure GenerateResponse where
  jobId : String
  status : JobStatus
  estimatedTime : Nat
  websocketUrl : String
deriving DecidableEq, Repr

/-- `startGeneration` (Submit): validation, then the admission check
against `maxConcurrentJobs` (default 5), then job creation.  The pipeline
itself is launched asynchronously and is modelled separately by
`processJob`. -/
def startGeneration (cfg : APIConfig) (ps : ProcState) (buffer : List Nat)
    (opts : GenerateOptions) (newId : String) (now : Nat) :
    Except APIValidationError (ProcState × GenerateResponse) := do
  validateImageBuffer buffer
  validateGenerateOptions opts
  validateApiKeys cfg opts
  let maxConcurrent := jsOrNat cfg.maxConcurrentJobs 5
  if maxConcurrent ≤ ps.processing.length then
    Except.error ⟨"同時実行数の上限に達しています。しばらく待ってから再度お試しください。", "concurrentJobs"⟩
  else
    let created := createJob ps.store newId now opts
    Except.ok (⟨created.1, ps.processing⟩,
      ⟨created.2.id, created.2.status, estimateProcessingTime opts,
        "/ws/progress/" ++ created.2.id⟩)

/-- `AdGeneratorService.generateBatch`: one `generateAd` call per
requested platform, in order; a failure is recorded in the error list and
the loop continues.  The third component logs every synthesizer
invocation (one entry per call made). -/
def generateBatch (synth : String → Outcome Nat) :
    List String → List (String × Nat) × List (String × String) × List String
  | [] => ([], [], [])
  | p :: rest =>
    let call := synth p
    let r := generateBatch synth rest
    match call with
    | Outcome.ok v => ((p, v) :: r.1, r.2.1, p :: r.2.2)
    | Outcome.err m => (r.1, (p, m) :: r.2.1, p :: r.2.2)

/-- `generateMultipleImages` with the hard-coded chunk size 2 used by
`generatePackageDesigns`: each prompt is handed to the image generator
exactly once; fulfilled prompts land in the design list, rejected ones in
the error list.  The third component logs every generator invocation. -/
def generateImagesChunked (gen : Nat → Outcome Nat) :
    List Nat → List Nat × List (Nat × String) × List Nat
  | [] => ([], [], [])
  | [p] =>
    (match gen p with
     | Outcome.ok v => ([v], [], [p])
     | Outcome.err m => ([], [(p, m)], [p]))
  | p :: q :: rest =>
    let c1 := gen p
    let c2 := gen q
    let r := generateImagesChunked gen rest
    match c1, c2 with
    | Outcome.ok v1, Outcome.ok v2 => (v1 :: v2 :: r.1, r.2.1, p :: q :: r.2.2)
    | Outcome.ok v1, Outcome.err m2 => (v1 :: r.1, (q, m2) :: r.2.1, p :: q :: r.2.2)
    | Outcome.err m1, Outcome.ok v2 => (v2 :: r.1, (p, m1) :: r.2.1, p :: q :: r.2.2)
    | Outcome.err m1, Outcome.err m2 =>
      (r.1, (p, m1) :: (q, m2) :: r.2.1, p :: q :: r.2.2)

/-- Event payload surfaced by the API-level subscription wrapper. -/
inductive EventType
  | progress
  | complete
  | error
deriving DecidableEq, Repr

/-- `ProgressEvent` as built by `ProductGenerationAPI.subscribeProgress`. -/
structure ProgressEvent where
  type : EventType
  jobId : String
  progress : JobProgress
  result : Option JobResult
  message : Option String
deriving DecidableEq, Repr

/-- Translate a job snapshot into the API-level event. -/
def toProgressEvent (j : Job) : ProgressEvent :=
  { type :=
      match j.status with
      | JobStatus.completed => EventType.complete
      | JobStatus.failed => EventType.error
      | _ => EventType.progress
    jobId := j.id
    progress := j.progress
    result :=
      match j.status with
      | JobStatus.completed => j.result
      | _ => none
    message := j.error }

/-- How `waitForCompletion` can settle synchronously. -/
inductive WaitOutcome
  | resolved (j : Job)
  | rejectedErr (msg : String)
  | rejectedNotFound
  | pending
deriving DecidableEq, Repr

/-- The subscription callback of `waitForCompletion`: a `complete` event
resolves with the stored job, an `error` event rejects, anything else
leaves the promise pending. -/
def waitHandler (s : Store) (jobId : String) (e : ProgressEvent) : WaitOutcome :=
  match e.type with
  | EventType.complete =>
    (match getJob s jobId with
     | some j => WaitOutcome.resolved j
     | none => WaitOutcome.rejectedNotFound)
  | EventType.error =>
    WaitOutcome.rejectedErr
      (match e.message with
       | some m => m
       | none => "Job failed")
  | EventType.progress => WaitOutcome.pending

/-- The synchronous part of `waitForCompletion`: subscribe (receiving the
replay events), run them through the callback, then perform the direct
store check for an already-terminal job.  A `pending` outcome means the
promise can settle only through its timeout. -/
def waitForCompletionSync (s : Store) (jobId : String) (tok : Nat) :
    Store × WaitOutcome :=
  let sub := subscribeProgress s jobId tok
  let fromReplay :=
    sub.2.foldl
      (fun acc e =>
        match acc with
        | WaitOutcome.pending => waitHandler sub.1 jobId (toProgressEvent e.2)
        | o => o)
      WaitOutcome.pending
  match fromReplay with
  | WaitOutcome.pending =>
    (match getJob sub.1 jobId with
     | some j =>
       (match j.status with
        | JobStatus.completed => (sub.1, WaitOutcome.resolved j)
        | JobStatus.failed =>
          (sub.1, WaitOutcome.rejectedErr
            (match j.error with
             | some m => m
             | none => "Job failed"))
        | _ => (sub.1, WaitOutcome.pending))
     | none => (sub.1, WaitOutcome.pending))
  | o => (sub.1, o)

/-! ### Store lemmas -/

theorem lookupA_setA_self {α : Type} (l : List (String × α)) (k : String) (v : α) :
    lookupA (setA l k v) k = some v := by
  induction l with
  | nil => simp [setA, lookupA]
  | cons e rest ih =>
    obtain ⟨k2, w⟩ := e
    by_cases h : k2 = k
    · simp [setA, h, lookupA]
    · simp [setA, h, lookupA, ih]

theorem lookupA_setA_ne {α : Type} (l : List (String × α)) (k k2 : String) (v : α)
    (h : k2 ≠ k) : lookupA (setA l k v) k2 = lookupA l k2 := by
  induction l with
  | nil => simp [setA, lookupA, Ne.symm h]
  | cons e rest ih =>
    obtain ⟨k3, w⟩ := e
    by_cases h3 : k3 = k
    · subst h3
      simp [setA, lookupA, Ne.symm h]
    · simp [setA, h3, lookupA, ih]

@[simp] theorem getJob_putAt_self (s : Store) (id : String) (j : Job) :
    getJob (putAt s id j) id = some j :=
  lookupA_setA_self s.jobs id j

@[simp] theorem subsOf_putAt (s : Store) (id2 : String) (j : Job) (id : String) :
    subsOf (putAt s id2 j) id = subsOf s id := rfl

theorem setA_length_of_notfound {α : Type} (l : List (String × α)) (k : String)
    (v : α) (h : lookupA l k = none) : (setA l k v).length = l.length + 1 := by
  induction l with
  | nil => simp [setA]
  | cons e rest ih =>
    obtain ⟨k2, w⟩ := e
    by_cases h2 : k2 = k
    · simp [lookupA, h2] at h
    · simp only [lookupA, h2, if_false] at h
      simp [setA, h2, ih h]

/-! ### Claim theorems -/

/-- Default ad-platform list used by `runAdGeneration` when the options
carry none. -/
def defaultAdPlatforms : List String :=
  ["instagram-square", "twitter-card", "facebook-feed", "web-banner-medium-rectangle"]

/-- C4 counterexample: with an image synthesizer that fails with a
rate-limit error on every call, the batch ad generation invokes the
synthesizer exactly once per requested platform — not three times — so
the claimed 3-attempt retry with backoff does not happen. -/
theorem c4_counterexample :
    ((generateBatch (fun _ => Outcome.err "rate_limit") defaultAdPlatforms).2.2.count
        "instagram-square" = 1) ∧
    ¬ ((generateBatch (fun _ => Outcome.err "rate_limit") defaultAdPlatforms).2.2.count
        "instagram-square" = 3) := by
  constructor
  · rfl
  · decide

/-- Call log of the package-image chunk loop equals the prompt list. -/
theorem generateImagesChunked_log (gen : Nat → Outcome Nat) :
    ∀ l : List Nat, (generateImagesChunked gen l).2.2 = l
  | [] => by simp [generateImagesChunked]
  | [p] => by
    cases h : gen p <;> simp [generateImagesChunked, h]
  | p :: q :: rest => by
    have ih := generateImagesChunked_log gen rest
    cases h1 : gen p <;> cases h2 : gen q <;>
      simp [generateImagesChunked, h1, h2, ih]

/-- C4 amended: no retry layer exists in the generation paths.  The ad
batch loop calls the synthesizer exactly once per requested platform (the
call log equals the platform list), every platform ends up in either the
result list or the error list, and the package-image chunk loop likewise
calls the generator exactly once per prompt. -/
theorem c4_single_attempt (synth : String → Outcome Nat)
    (gen : Nat → Outcome Nat) (platforms : List String) (prompts : List Nat) :
    (generateBatch synth platforms).2.2 = platforms ∧
    (generateBatch synth platforms).1.length +
      (generateBatch synth platforms).2.1.length = platforms.length ∧
    (generateImagesChunked gen prompts).2.2 = prompts := by
  refine ⟨?_, ?_, generateImagesChunked_log gen prompts⟩
  · induction platforms with
    | nil => simp [generateBatch]
    | cons p rest ih =>
      cases h : synth p <;> simp [generateBatch, h, ih]
  · induction platforms with
    | nil => simp [generateBatch]
    | cons p rest ih =>
      cases h : synth p <;> simp [generateBatch, h, ih] <;> omega

/-- Example job record used for concrete counterexamples. -/
def exJob : Job :=
  { id := "j1"
    status := JobStatus.processing
    progress :=
      { analysis := StepStatus.done
        packages := StepStatus.done
        ads := StepStatus.done
        texts := StepStatus.done }
    createdAt := 0
    updatedAt := 3
    completedAt := none
    error := none
    result := none
    options := ⟨none, none, none, none, false, false, false⟩ }

/-- Store holding `exJob` with one live subscriber (token 0). -/
def exStore : Store := ⟨[("j1", exJob)], [("j1", [0])]⟩

/-- Example result bundle. -/
def exResult : JobResult := ⟨some 7, some [1], some [2], some 3, some "/api/v1/download/j1"⟩

/-- C5 counterexample: `setJobResult` applied to an existing job with one
live subscriber delivers zero events — not the one event per subscriber
the claim demands — because the source omits the `notifyProgress` call. -/
theorem c5_counterexample :
    (setJobResult exStore "j1" exResult 5).2 = [] ∧
    ¬ ((setJobResult exStore "j1" exResult 5).2.length = 1) := by
  constructor
  · rfl
  · decide

/-- C5 amended: `UpdateStatus`, `UpdateStage` and `SetError` each deliver
exactly one event to every live subscriber of the job and bump
`updatedAt`; `SetResult` also bumps `updatedAt` but delivers no event. -/
theorem c5_mutation_events (s : Store) (id : String) (j : Job)
    (st : JobStatus) (stage : StageName) (v : StepStatus) (msg : String)
    (r : JobResult) (now : Nat) (h : getJob s id = some j) (hjid : j.id = id) :
    (∃ j2, (updateJobStatus s id st now).2 = (subsOf s id).map (fun t => (t, j2)) ∧
      j2.updatedAt = now ∧ j2.status = st ∧
      getJob (updateJobStatus s id st now).1 id = some j2) ∧
    (∃ j2, (updateJobProgress s id stage v now).2 = (subsOf s id).map (fun t => (t, j2)) ∧
      j2.updatedAt = now ∧
      getJob (updateJobProgress s id stage v now).1 id = some j2) ∧
    (∃ j2, (setJobError s id msg now).2 = (subsOf s id).map (fun t => (t, j2)) ∧
      j2.updatedAt = now ∧ j2.error = some msg ∧ j2.status = JobStatus.failed ∧
      getJob (setJobError s id msg now).1 id = some j2) ∧
    ((setJobResult s id r now).2 = [] ∧
      ∃ j2, getJob (setJobResult s id r now).1 id = some j2 ∧
        j2.updatedAt = now ∧ j2.result = some r) := by
  refine ⟨?_, ?_, ?_, ?_, ?_⟩
  · refine ⟨{ j with
        status := st
        updatedAt := now
        completedAt := (match st with
          | JobStatus.completed => some now
          | JobStatus.failed => some now
          | _ => j.completedAt) }, ?_, rfl, rfl, ?_⟩
    · simp [updateJobStatus, h, notifyProgress, hjid]
    · simp [updateJobStatus, h]
  · refine ⟨{ j with
        progress := setStage j.progress stage v
        updatedAt := now }, ?_, rfl, ?_⟩
    · simp [updateJobProgress, h, notifyProgress, hjid]
    · simp [updateJobProgress, h]
  · refine ⟨{ j with
        error := some msg
        status := JobStatus.failed
        updatedAt := now
        completedAt := some now }, ?_, rfl, rfl, rfl, ?_⟩
    · simp [setJobError, h, notifyProgress, hjid]
    · simp [setJobError, h]
  · simp [setJobResult, h]
  · refine ⟨{ j with
        result := some r
        updatedAt := now }, ?_, rfl, rfl⟩
    simp [setJobResult, h]

/-- Witness for the C5 amended theorem: with one live subscriber,
`updateJobStatus` delivers exactly one event. -/
theorem c5_mutation_events_witness :
    (updateJobStatus exStore "j1" JobStatus.processing 9).2.length = 1 := by
  obtain ⟨⟨j2, he, _⟩, _⟩ :=
    c5_mutation_events exStore "j1" exJob JobStatus.processing StageName.texts
      StepStatus.done "m" exResult 9 rfl rfl
  rw [he]
  simp [subsOf, exStore, lookupA]

/-- The C6 claim's closed form, modelled from the spec's words: the ad
term uses the count of the requested platform list, falling back to 4
only when the list is absent. -/
def specEstimateC6 (o : GenerateOptions) : Nat :=
  10 + (if o.skipPackages then 0
        else (match o.packageVariations with
              | none => 3
              | some v => v) * 15)
     + (if o.skipAds then 0
        else (match o.adPlatforms with
              | none => 4
              | some l => l.length) * 10)
     + (if o.skipTexts then 0 else 10)

/-- Submission options with an explicitly empty ad-platform list. -/
def c6Opts : GenerateOptions := ⟨none, none, none, some [], false, false, false⟩

/-- C6 counterexample: for a submission with an empty (but present)
ad-platform list — which passes option validation — the code estimates
105 s (the empty list falls back to the default count 4 through JS `||`),
while the claimed closed form gives 65 s. -/
theorem c6_counterexample :
    validateGenerateOptions c6Opts = Except.ok () ∧
    estimateProcessingTime c6Opts = 105 ∧
    specEstimateC6 c6Opts = 65 ∧
    ¬ (estimateProcessingTime c6Opts = specEstimateC6 c6Opts) := by
  refine ⟨rfl, rfl, rfl, ?_⟩
  intro h
  simp [estimateProcessingTime, specEstimateC6, c6Opts, jsOrNat, jsPlatformCount] at h

/-- Options validation forces the variation-count check to pass. -/
theorem validate_ok_variations (o : GenerateOptions)
    (h : validateGenerateOptions o = Except.ok ()) :
    checkVariations o = Except.ok () := by
  unfold validateGenerateOptions at h
  cases hb : checkBrandName o with
  | error e => simp [hb, Bind.bind, Except.bind] at h
  | ok u =>
    cases hp : checkProductName o with
    | error e => simp [hb, hp, Bind.bind, Except.bind] at h
    | ok u2 => simpa [hb, hp, Bind.bind, Except.bind] using h

/-- The amended C6 closed form: as the claim, except that an empty
ad-platform list also falls back to the default count of 4. -/
def amendedEstimateC6 (o : GenerateOptions) : Nat :=
  10 + (if o.skipPackages then 0
        else (match o.packageVariations with
              | none => 3
              | some v => v) * 15)
     + (if o.skipAds then 0
        else (match o.adPlatforms with
              | none => 4
              | some l => if l.length = 0 then 4 else l.length) * 10)
     + (if o.skipTexts then 0 else 10)

/-- C6 amended: for every submission that passes option validation, the
estimate is 10, plus variationCount × 15 unless Packages is skipped, plus
platformCount × 10 unless Ads is skipped (platformCount = list length,
falling back to 4 when the list is absent or empty), plus 10 unless Texts
is skipped; with Packages and Ads skipped and Texts enabled it is 20. -/
theorem c6_estimate (o : GenerateOptions)
    (h : validateGenerateOptions o = Except.ok ()) :
    estimateProcessingTime o = amendedEstimateC6 o ∧
    (o.skipPackages = true → o.skipAds = true → o.skipTexts = false →
      estimateProcessingTime o = 20) := by
  constructor
  · have hv := validate_ok_variations o h
    unfold estimateProcessingTime amendedEstimateC6 jsOrNat jsPlatformCount
    cases hpv : o.packageVariations with
    | none => rfl
    | some v =>
      unfold checkVariations at hv
      rw [hpv] at hv
      by_cases h0 : v = 0
      · subst h0
        simp at hv
      · simp [h0]
  · intro h1 h2 h3
    simp [estimateProcessingTime, h1, h2, h3]

/-- Witness for C6 amended: with Packages and Ads skipped and Texts
enabled, the estimate is 20 seconds. -/
theorem c6_estimate_witness :
    estimateProcessingTime ⟨none, none, none, none, true, true, false⟩ = 20 :=
  (c6_estimate ⟨none, none, none, none, true, true, false⟩ rfl).2 rfl rfl rfl

/-- C10: subscribing to an unknown job id registers the callback but
delivers no replay event, and the synchronous part of
`waitForCompletion` neither resolves nor rejects — the promise can only
settle through its timeout. -/
theorem c10_unknown_job (s : Store) (id : String) (tok : Nat)
    (h : getJob s id = none) :
    (subscribeProgress s id tok).2 = [] ∧
    (waitForCompletionSync s id tok).2 = WaitOutcome.pending := by
  have h2 : lookupA s.jobs id = none := h
  constructor
  · simp [subscribeProgress, getJob, h2]
  · simp [waitForCompletionSync, subscribeProgress, getJob, h2]

/-- Witness for C10 at the empty store. -/
theorem c10_unknown_job_witness :
    (subscribeProgress ⟨[], []⟩ "missing" 0).2 = [] ∧
    (waitForCompletionSync ⟨[], []⟩ "missing" 0).2 = WaitOutcome.pending :=
  c10_unknown_job ⟨[], []⟩ "missing" 0 rfl

/-- C3: a Submit that passes validation is rejected with a
`concurrentJobs`-tagged error — and creates nothing — exactly when the
number of jobs being processed has reached `maxConcurrentJobs`
(default 5); below the cap it creates exactly one new `pending` record. -/
theorem c3_admission (cfg : APIConfig) (ps : ProcState) (buffer : List Nat)
    (opts : GenerateOptions) (newId : String) (now : Nat)
    (hb : validateImageBuffer buffer = Except.ok ())
    (ho : validateGenerateOptions opts = Except.ok ())
    (hk : validateApiKeys cfg opts = Except.ok ())
    (hfresh : getJob ps.store newId = none) :
    (jsOrNat cfg.maxConcurrentJobs 5 ≤ ps.processing.length →
      startGeneration cfg ps buffer opts newId now =
        Except.error ⟨"同時実行数の上限に達しています。しばらく待ってから再度お試しください。", "concurrentJobs"⟩) ∧
    (ps.processing.length < jsOrNat cfg.maxConcurrentJobs 5 →
      ∃ st2 resp, startGeneration cfg ps buffer opts newId now = Except.ok (st2, resp) ∧
        resp.status = JobStatus.pending ∧
        resp.estimatedTime = estimateProcessingTime opts ∧
        getJob st2.store newId = some (createJob ps.store newId now opts).2 ∧
        st2.store.jobs.length = ps.store.jobs.length + 1 ∧
        ∀ other, other ≠ newId → getJob st2.store other = getJob ps.store other) := by
  constructor
  · intro hcap
    simp [startGeneration, hb, ho, hk, Bind.bind, Except.bind, hcap]
  · intro hlt
    have hno : ¬ (jsOrNat cfg.maxConcurrentJobs 5 ≤ ps.processing.length) := by omega
    refine ⟨⟨(createJob ps.store newId now opts).1, ps.processing⟩,
      ⟨newId, JobStatus.pending, estimateProcessingTime opts, "/ws/progress/" ++ newId⟩,
      ?_, rfl, rfl, ?_, ?_, ?_⟩
    · simp [startGeneration, hb, ho, hk, Bind.bind, Except.bind, hno, createJob]
    · simp [createJob, getJob, putAt, lookupA_setA_self]
    · simpa [createJob, putAt] using setA_length_of_notfound ps.store.jobs newId _ hfresh
    · intro other hne
      simp [createJob, getJob, putAt, lookupA_setA_ne _ _ _ _ hne]

/-- Concrete API configuration for the C3 witness. -/
def c3Cfg : APIConfig := ⟨some "ck", some "ok-key", none⟩

/-- A tiny valid JPEG payload. -/
def c3Buf : List Nat := [0xff, 0xd8, 0x01]

/-- Options with every field defaulted. -/
def c3Opts : GenerateOptions := ⟨none, none, none, none, false, false, false⟩

/-- Witness for C3: with five jobs already processing the Submit is
rejected with the `concurrentJobs` error; on an idle system it succeeds. -/
theorem c3_admission_witness :
    (startGeneration c3Cfg ⟨⟨[], []⟩, ["a", "b", "c", "d", "e"]⟩ c3Buf c3Opts "n1" 0 =
      Except.error ⟨"同時実行数の上限に達しています。しばらく待ってから再度お試しください。", "concurrentJobs"⟩) ∧
    (∃ st2 resp,
      startGeneration c3Cfg ⟨⟨[], []⟩, []⟩ c3Buf c3Opts "n1" 0 = Except.ok (st2, resp) ∧
        resp.status = JobStatus.pending ∧
        resp.estimatedTime = estimateProcessingTime c3Opts ∧
        getJob st2.store "n1" = some (createJob (⟨[], []⟩ : Store) "n1" 0 c3Opts).2 ∧
        st2.store.jobs.length = (⟨[], []⟩ : Store).jobs.length + 1 ∧
        ∀ other, other ≠ "n1" → getJob st2.store other = getJob (⟨[], []⟩ : Store) other) :=
  ⟨(c3_admission c3Cfg ⟨⟨[], []⟩, ["a", "b", "c", "d", "e"]⟩ c3Buf c3Opts "n1" 0
      rfl rfl rfl rfl).1 (by decide),
   (c3_admission c3Cfg ⟨⟨[], []⟩, []⟩ c3Buf c3Opts "n1" 0
      rfl rfl rfl rfl).2 (by decide)⟩

/-- A list starts with `m` exactly when its `m`-length front equals `m`. -/
theorem take_eq_append_iff {α : Type} (m b : List α) :
    b.take m.length = m ↔ ∃ r, b = m ++ r := by
  constructor
  · intro h
    refine ⟨b.drop m.length, ?_⟩
    conv_lhs => rw [← List.take_append_drop m.length b]
    rw [h]
  · rintro ⟨r, rfl⟩
    exact List.take_left m r

/-- The two WebP window checks of the validator are equivalent to the
spec's shape `RIFF....WEBP` with four free bytes in between. -/
theorem webp_checks_iff (b : List Nat) :
    (b.take 4 = riffBytes ∧ (b.drop 8).take 4 = webpBytes) ↔
      ∃ x r, x.length = 4 ∧ b = riffBytes ++ x ++ webpBytes ++ r := by
  constructor
  · rintro ⟨h1, h2⟩
    obtain ⟨t, rfl⟩ := (take_eq_append_iff riffBytes b).mp h1
    have hd : (riffBytes ++ t).drop 8 = t.drop 4 := by
      simp [riffBytes]
    rw [hd] at h2
    obtain ⟨r, hr⟩ := (take_eq_append_iff webpBytes (t.drop 4)).mp h2
    have hne : t.drop 4 ≠ [] := by
      rw [hr]
      simp [webpBytes]
    have hlen : 4 < t.length := by
      by_contra hle
      push_neg at hle
      exact hne (List.drop_eq_nil_iff.mpr hle)
    refine ⟨t.take 4, r, ?_, ?_⟩
    · simp [List.length_take]
      omega
    · rw [List.append_assoc, List.append_assoc]
      congr 1
      rw [← hr, List.take_append_drop]
  · rintro ⟨x, r, hx, rfl⟩
    have hx4 : riffBytes.length = 4 := rfl
    constructor
    · rw [List.append_assoc, List.append_assoc]
      exact List.take_left' hx4
    · have h8 : (riffBytes ++ x).length = 8 := by
        simp [riffBytes, hx]
      rw [List.append_assoc, List.drop_left' h8]
      exact List.take_left' rfl

/-- The spec's acceptance condition for an image payload: non-empty, at
most 10 MiB, and starting with the JPEG, PNG or `RIFF....WEBP` magic. -/
def specImageAccept (b : List Nat) : Prop :=
  b ≠ [] ∧ b.length ≤ MAX_IMAGE_SIZE ∧
    ((∃ r, b = jpegMagicBytes ++ r) ∨ (∃ r, b = pngMagicBytes ++ r) ∨
      (∃ x r, x.length = 4 ∧ b = riffBytes ++ x ++ webpBytes ++ r))

/-- A JPEG payload of exactly 10 MiB. -/
def tenMiBImage : List Nat := jpegMagicBytes ++ List.replicate (MAX_IMAGE_SIZE - 2) 0

/-- A JPEG payload of 10 MiB plus one byte. -/
def tenMiBPlusImage : List Nat := jpegMagicBytes ++ List.replicate (MAX_IMAGE_SIZE - 1) 0

/-- C7: `validateImageBuffer` accepts exactly the payloads the spec
describes; every rejection carries the `imageBuffer` field tag and makes
Submit fail before any job is created; the 10 MiB boundary is inclusive. -/
theorem c7_image_validation :
    (∀ b : List Nat,
      (validateImageBuffer b = Except.ok () ↔ specImageAccept b) ∧
      (∀ e, validateImageBuffer b = Except.error e → e.field = "imageBuffer") ∧
      (∀ e cfg ps opts newId now, validateImageBuffer b = Except.error e →
        startGeneration cfg ps b opts newId now = Except.error e)) ∧
    validateImageBuffer tenMiBImage = Except.ok () ∧
    validateImageBuffer tenMiBPlusImage =
      Except.error ⟨"画像サイズが大きすぎます。", "imageBuffer"⟩ := by
  have hiff : ∀ b : List Nat, validateImageBuffer b = Except.ok () ↔ specImageAccept b := by
    intro b
    unfold validateImageBuffer specImageAccept
    by_cases h0 : b.length = 0
    · simp [h0, List.length_eq_zero.mp h0]
    · rw [if_neg h0]
      by_cases hm : MAX_IMAGE_SIZE < b.length
      · simp [hm]
      · rw [if_neg hm]
        push_neg at hm
        have hne : b ≠ [] := by
          intro hb
          exact h0 (by simp [hb])
        by_cases hmagic : b.take 2 = jpegMagicBytes ∨ b.take 8 = pngMagicBytes ∨
            (b.take 4 = riffBytes ∧ (b.drop 8).take 4 = webpBytes)
        · rw [if_pos hmagic]
          constructor
          · intro _
            refine ⟨hne, hm, ?_⟩
            rcases hmagic with hj | hp | hw
            · exact Or.inl ((take_eq_append_iff jpegMagicBytes b).mp hj)
            · exact Or.inr (Or.inl ((take_eq_append_iff pngMagicBytes b).mp hp))
            · exact Or.inr (Or.inr ((webp_checks_iff b).mp hw))
          · intro _
            rfl
        · rw [if_neg hmagic]
          constructor
          · intro hcontra
            exact absurd hcontra (by simp)
          · rintro ⟨-, -, hj | hp | hw⟩
            · exact absurd (Or.inl ((take_eq_append_iff jpegMagicBytes b).mpr hj)) hmagic
            · exact absurd (Or.inr (Or.inl ((take_eq_append_iff pngMagicBytes b).mpr hp))) hmagic
            · exact absurd (Or.inr (Or.inr ((webp_checks_iff b).mpr hw))) hmagic
  refine ⟨fun b => ⟨hiff b, ?_, ?_⟩, ?_, ?_⟩
  · intro e he
    unfold validateImageBuffer at he
    by_cases h0 : b.length = 0
    · rw [if_pos h0] at he
      cases he
      rfl
    · rw [if_neg h0] at he
      by_cases hm : MAX_IMAGE_SIZE < b.length
      · rw [if_pos hm] at he
        cases he
        rfl
      · rw [if_neg hm] at he
        by_cases hmagic : b.take 2 = jpegMagicBytes ∨ b.take 8 = pngMagicBytes ∨
            (b.take 4 = riffBytes ∧ (b.drop 8).take 4 = webpBytes)
        · rw [if_pos hmagic] at he
          cases he
        · rw [if_neg hmagic] at he
          cases he
          rfl
  · intro e cfg ps opts newId now he
    simp [startGeneration, he, Bind.bind, Except.bind]
  · rw [hiff]
    have h1 : tenMiBImage.length = MAX_IMAGE_SIZE := by
      rw [tenMiBImage, List.length_append, List.length_replicate]
      rfl
    refine ⟨List.cons_ne_nil _ _, by omega, Or.inl ⟨_, rfl⟩⟩
  · have hlen : tenMiBPlusImage.length = MAX_IMAGE_SIZE + 1 := by
      rw [tenMiBPlusImage, List.length_append, List.length_replicate]
      rfl
    unfold validateImageBuffer
    rw [if_neg (by omega), if_pos (by omega)]

/-- Witness for C7: a plain-text payload is rejected with the
`imageBuffer` field tag, and Submit propagates exactly that error. -/
theorem c7_image_validation_witness :
    validateImageBuffer [0x69, 0x6e, 0x76, 0x61, 0x6c, 0x69, 0x64] =
      Except.error ⟨"対応していない画像フォーマットです。", "imageBuffer"⟩ ∧
    (validateImageBuffer [0x69, 0x6e, 0x76, 0x61, 0x6c, 0x69, 0x64] =
        Except.error ⟨"対応していない画像フォーマットです。", "imageBuffer"⟩ →
      startGeneration c3Cfg ⟨⟨[], []⟩, []⟩ [0x69, 0x6e, 0x76, 0x61, 0x6c, 0x69, 0x64]
          c3Opts "n1" 0 =
        Except.error ⟨"対応していない画像フォーマットです。", "imageBuffer"⟩) :=
  ⟨rfl,
   (c7_image_validation.1 [0x69, 0x6e, 0x76, 0x61, 0x6c, 0x69, 0x64]).2.2
     ⟨"対応していない画像フォーマットです。", "imageBuffer"⟩ c3Cfg ⟨⟨[], []⟩, []⟩ c3Opts "n1" 0⟩


/-! ### Pipeline-run characterization -/

theorem processJob_ok_store (s0 : Store) (id : String) (opts : GenerateOptions)
    (runs : StageRuns) (a : Nat) (now t : Nat) (procs : List String)
    (hp : id ∉ procs) (ha : runs.analysisRun = Outcome.ok a) :
    getJob (processJob ⟨(createJob s0 id now opts).1, procs⟩
        (createJob s0 id now opts).2 runs t).1.store id = some
      { id := id
        status := JobStatus.completed
        progress :=
          { analysis := StepStatus.done
            packages :=
              if opts.skipPackages then StepStatus.skipped else
                (match runs.packagesRun with
                 | Outcome.ok _ => StepStatus.done
                 | Outcome.err _ => StepStatus.failed)
            ads :=
              if opts.skipAds then StepStatus.skipped else
                (match runs.adsRun with
                 | Outcome.ok _ => StepStatus.done
                 | Outcome.err _ => StepStatus.failed)
            texts :=
              if opts.skipTexts then StepStatus.skipped else
                (match runs.textsRun with
                 | Outcome.ok _ => StepStatus.done
                 | Outcome.err _ => StepStatus.failed) }
        createdAt := now
        updatedAt := t
        completedAt := some t
        error := none
        result := some
          { analysis := some a
            packages :=
              if opts.skipPackages then none else
                (match runs.packagesRun with
                 | Outcome.ok v => some v
                 | Outcome.err _ => none)
            ads :=
              if opts.skipAds then none else
                (match runs.adsRun with
                 | Outcome.ok v => some v
                 | Outcome.err _ => none)
            texts :=
              if opts.skipTexts then none else
                (match runs.textsRun with
                 | Outcome.ok v => some v
                 | Outcome.err _ => none)
            downloadUrl := some ("/api/v1/download/" ++ id) }
        options := opts } := by
  cases hsp : opts.skipPackages <;> cases hsa : opts.skipAds <;>
    cases hst : opts.skipTexts <;> cases hpr : runs.packagesRun <;>
    cases har : runs.adsRun <;> cases htr : runs.textsRun <;>
    simp [processJob, createJob, updateJobStatus, updateJobProgress,
      setJobResult, setJobError, setStage, hp, ha, hsp, hsa, hst, hpr, har, htr]

set_option maxHeartbeats 2000000 in
theorem processJob_ok_event_tokens (s0 : Store) (id : String)
    (opts : GenerateOptions) (runs : StageRuns) (a : Nat) (now t : Nat)
    (procs : List String) (hp : id ∉ procs) (ha : runs.analysisRun = Outcome.ok a) :
    ∀ x ∈ ((processJob ⟨(createJob s0 id now opts).1, procs⟩
        (createJob s0 id now opts).2 runs t).2.map Prod.fst), x ∈ subsOf s0 id := by
  cases hsp : opts.skipPackages <;> cases hsa : opts.skipAds <;>
    cases hst : opts.skipTexts <;> cases hpr : runs.packagesRun <;>
    cases har : runs.adsRun <;> cases htr : runs.textsRun <;>
    simp [processJob, createJob, updateJobStatus, updateJobProgress,
      setJobResult, setJobError, setStage, notifyProgress, hp, ha, hsp, hsa,
      hst, hpr, har, htr]

theorem processJob_err_store (s0 : Store) (id : String) (opts : GenerateOptions)
    (runs : StageRuns) (m : String) (now t : Nat) (procs : List String)
    (hp : id ∉ procs) (ha : runs.analysisRun = Outcome.err m) :
    getJob (processJob ⟨(createJob s0 id now opts).1, procs⟩
        (createJob s0 id now opts).2 runs t).1.store id = some
      { id := id
        status := JobStatus.failed
        progress :=
          { analysis := StepStatus.failed
            packages := if opts.skipPackages then StepStatus.skipped else StepStatus.pending
            ads := if opts.skipAds then StepStatus.skipped else StepStatus.pending
            texts := if opts.skipTexts then StepStatus.skipped else StepStatus.pending }
        createdAt := now
        updatedAt := t
        completedAt := some t
        error := some ("画像分析に失敗: " ++ m)
        result := none
        options := opts } := by
  cases hsp : opts.skipPackages <;> cases hsa : opts.skipAds <;>
    cases hst : opts.skipTexts <;>
    simp [processJob, createJob, updateJobStatus, updateJobProgress,
      setJobResult, setJobError, setStage, hp, ha, hsp, hsa, hst]

set_option maxHeartbeats 800000 in
theorem processJob_err_events (s0 : Store) (id : String) (opts : GenerateOptions)
    (runs : StageRuns) (m : String) (now t : Nat) (procs : List String)
    (hp : id ∉ procs) (ha : runs.analysisRun = Outcome.err m) :
    ∀ e ∈ (processJob ⟨(createJob s0 id now opts).1, procs⟩
        (createJob s0 id now opts).2 runs t).2,
      e.1 ∈ subsOf s0 id ∧
      e.2.progress.packages ≠ StepStatus.processing ∧
      e.2.progress.ads ≠ StepStatus.processing ∧
      e.2.progress.texts ≠ StepStatus.processing := by
  cases hsp : opts.skipPackages <;> cases hsa : opts.skipAds <;>
    cases hst : opts.skipTexts <;>
    simp [processJob, createJob, updateJobStatus, updateJobProgress,
      setJobResult, setJobError, setStage, notifyProgress, hp, ha, hsp, hsa, hst] <;>
    aesop


def runTarget (s0 : Store) (id : String) (opts : GenerateOptions)
    (runs : StageRuns) (now t : Nat) (procs : List String) :
    ProcState × List (Nat × Job) :=
  processJob ⟨(createJob s0 id now opts).1, procs⟩ (createJob s0 id now opts).2 runs t

/-- C1: whenever the Analysis stage succeeds the job ends `completed`
even if every post-analysis stage fails; each failing stage is marked
`failed` with its result field absent, the top-level error stays empty,
every non-skipped stage finishes in `done` or `failed`, and the analysis
output (a required output) is present with its stage `done`. -/
theorem c1_partial_failure (s0 : Store) (id : String) (opts : GenerateOptions)
    (runs : StageRuns) (a : Nat) (now t : Nat) (procs : List String)
    (hp : id ∉ procs) (ha : runs.analysisRun = Outcome.ok a) :
    ∃ fj r, getJob (runTarget s0 id opts runs now t procs).1.store id = some fj ∧
      fj.status = JobStatus.completed ∧
      fj.error = none ∧
      fj.result = some r ∧
      r.analysis = some a ∧
      fj.progress.analysis = StepStatus.done ∧
      (∀ m, opts.skipPackages = false → runs.packagesRun = Outcome.err m →
        fj.progress.packages = StepStatus.failed ∧ r.packages = none) ∧
      (∀ m, opts.skipAds = false → runs.adsRun = Outcome.err m →
        fj.progress.ads = StepStatus.failed ∧ r.ads = none) ∧
      (∀ m, opts.skipTexts = false → runs.textsRun = Outcome.err m →
        fj.progress.texts = StepStatus.failed ∧ r.texts = none) ∧
      (fj.progress.packages ≠ StepStatus.skipped →
        fj.progress.packages = StepStatus.done ∨ fj.progress.packages = StepStatus.failed) ∧
      (fj.progress.ads ≠ StepStatus.skipped →
        fj.progress.ads = StepStatus.done ∨ fj.progress.ads = StepStatus.failed) ∧
      (fj.progress.texts ≠ StepStatus.skipped →
        fj.progress.texts = StepStatus.done ∨ fj.progress.texts = StepStatus.failed) := by
  refine ⟨_, _, processJob_ok_store s0 id opts runs a now t procs hp ha,
    rfl, rfl, rfl, rfl, rfl, ?_, ?_, ?_, ?_, ?_, ?_⟩
  · intro m hsp hm
    constructor <;> simp [hsp, hm]
  · intro m hsa hm
    constructor <;> simp [hsa, hm]
  · intro m hst hm
    constructor <;> simp [hst, hm]
  · intro hne
    by_cases hsp : opts.skipPackages = true
    · simp [hsp] at hne
    · simp only [Bool.not_eq_true] at hsp
      cases hpr : runs.packagesRun <;> simp [hsp, hpr]
  · intro hne
    by_cases hsa : opts.skipAds = true
    · simp [hsa] at hne
    · simp only [Bool.not_eq_true] at hsa
      cases har : runs.adsRun <;> simp [hsa, har]
  · intro hne
    by_cases hst : opts.skipTexts = true
    · simp [hst] at hne
    · simp only [Bool.not_eq_true] at hst
      cases htr : runs.textsRun <;> simp [hst, htr]

/-- All-fail stage oracles: analysis succeeds, every downstream stage
raises a rate-limit error. -/
def allFailRuns : StageRuns :=
  ⟨Outcome.ok 7, Outcome.err "rate_limit", Outcome.err "rate_limit",
    Outcome.err "rate_limit"⟩

/-- Witness for C1: all three post-analysis stages fail, yet the job
completes with an empty error and no packages/ads/texts result fields. -/
theorem c1_partial_failure_witness :
    ∃ fj r, getJob (runTarget ⟨[], []⟩ "j1" ⟨none, none, none, none, false, false, false⟩
        allFailRuns 0 5 []).1.store "j1" = some fj ∧
      fj.status = JobStatus.completed ∧
      fj.error = none ∧
      fj.result = some r ∧
      r.analysis = some 7 ∧
      fj.progress.analysis = StepStatus.done ∧
      (∀ m, (false : Bool) = false → allFailRuns.packagesRun = Outcome.err m →
        fj.progress.packages = StepStatus.failed ∧ r.packages = none) ∧
      (∀ m, (false : Bool) = false → allFailRuns.adsRun = Outcome.err m →
        fj.progress.ads = StepStatus.failed ∧ r.ads = none) ∧
      (∀ m, (false : Bool) = false → allFailRuns.textsRun = Outcome.err m →
        fj.progress.texts = StepStatus.failed ∧ r.texts = none) ∧
      (fj.progress.packages ≠ StepStatus.skipped →
        fj.progress.packages = StepStatus.done ∨ fj.progress.packages = StepStatus.failed) ∧
      (fj.progress.ads ≠ StepStatus.skipped →
        fj.progress.ads = StepStatus.done ∨ fj.progress.ads = StepStatus.failed) ∧
      (fj.progress.texts ≠ StepStatus.skipped →
        fj.progress.texts = StepStatus.done ∨ fj.progress.texts = StepStatus.failed) :=
  c1_partial_failure ⟨[], []⟩ "j1" ⟨none, none, none, none, false, false, false⟩
    allFailRuns 7 0 5 [] (by simp) rfl

/-- C2: when the Analysis stage fails the job becomes `failed` carrying
the analysis error, the analysis stage is `failed`, every other
non-skipped stage remains `pending` (not re-classified `skipped`), no
result is stored, and no published snapshot ever shows a post-analysis
stage in `processing`. -/
theorem c2_analysis_fatal (s0 : Store) (id : String) (opts : GenerateOptions)
    (runs : StageRuns) (m : String) (now t : Nat) (procs : List String)
    (hp : id ∉ procs) (ha : runs.analysisRun = Outcome.err m) :
    ∃ fj, getJob (runTarget s0 id opts runs now t procs).1.store id = some fj ∧
      fj.status = JobStatus.failed ∧
      fj.error = some ("画像分析に失敗: " ++ m) ∧
      fj.progress.analysis = StepStatus.failed ∧
      fj.progress.packages =
        (if opts.skipPackages then StepStatus.skipped else StepStatus.pending) ∧
      fj.progress.ads =
        (if opts.skipAds then StepStatus.skipped else StepStatus.pending) ∧
      fj.progress.texts =
        (if opts.skipTexts then StepStatus.skipped else StepStatus.pending) ∧
      fj.result = none ∧
      ∀ e ∈ (runTarget s0 id opts runs now t procs).2,
        e.2.progress.packages ≠ StepStatus.processing ∧
        e.2.progress.ads ≠ StepStatus.processing ∧
        e.2.progress.texts ≠ StepStatus.processing := by
  refine ⟨_, processJob_err_store s0 id opts runs m now t procs hp ha,
    rfl, rfl, rfl, rfl, rfl, rfl, rfl, ?_⟩
  intro e he
  exact (processJob_err_events s0 id opts runs m now t procs hp ha e he).2

/-- Witness for C2: a `BadImage` analysis failure fails the job and
leaves packages/ads/texts pending. -/
theorem c2_analysis_fatal_witness :
    ∃ fj, getJob (runTarget ⟨[], []⟩ "j2" ⟨none, none, none, none, false, false, false⟩
        ⟨Outcome.err "BadImage", Outcome.ok [], Outcome.ok [], Outcome.ok 0⟩
        0 5 []).1.store "j2" = some fj ∧
      fj.status = JobStatus.failed ∧
      fj.error = some ("画像分析に失敗: " ++ "BadImage") ∧
      fj.progress.analysis = StepStatus.failed ∧
      fj.progress.packages = (if (false : Bool) then StepStatus.skipped else StepStatus.pending) ∧
      fj.progress.ads = (if (false : Bool) then StepStatus.skipped else StepStatus.pending) ∧
      fj.progress.texts = (if (false : Bool) then StepStatus.skipped else StepStatus.pending) ∧
      fj.result = none ∧
      ∀ e ∈ (runTarget ⟨[], []⟩ "j2" ⟨none, none, none, none, false, false, false⟩
          ⟨Outcome.err "BadImage", Outcome.ok [], Outcome.ok [], Outcome.ok 0⟩ 0 5 []).2,
        e.2.progress.packages ≠ StepStatus.processing ∧
        e.2.progress.ads ≠ StepStatus.processing ∧
        e.2.progress.texts ≠ StepStatus.processing :=
  c2_analysis_fatal ⟨[], []⟩ "j2" ⟨none, none, none, none, false, false, false⟩
    ⟨Outcome.err "BadImage", Outcome.ok [], Outcome.ok [], Outcome.ok 0⟩
    "BadImage" 0 5 [] (by simp) rfl

/-- C8: subscribing to an existing job synchronously delivers exactly one
replay event carrying the current snapshot; after a finished pipeline run
the job is terminal, the replay already shows that terminal state, and a
token subscribed only after the run receives no event of the run. -/
theorem c8_subscribe_replay :
    (∀ (s : Store) (id : String) (tok : Nat) (j : Job), getJob s id = some j →
      (subscribeProgress s id tok).2 = [(tok, j)]) ∧
    (∀ (s0 : Store) (id : String) (opts : GenerateOptions) (runs : StageRuns)
        (now t : Nat) (procs : List String) (tok2 : Nat),
      id ∉ procs → tok2 ∉ subsOf s0 id →
      ∃ fj,
        getJob (runTarget s0 id opts runs now t procs).1.store id = some fj ∧
        isTerminal fj.status = true ∧
        (subscribeProgress (runTarget s0 id opts runs now t procs).1.store id tok2).2 =
          [(tok2, fj)] ∧
        ∀ e ∈ (runTarget s0 id opts runs now t procs).2, e.1 ≠ tok2) := by
  have hrep : ∀ (s : Store) (id : String) (tok : Nat) (j : Job), getJob s id = some j →
      (subscribeProgress s id tok).2 = [(tok, j)] := by
    intro s id tok j h
    have h2 : lookupA s.jobs id = some j := h
    simp [subscribeProgress, getJob, h2]
  refine ⟨hrep, ?_⟩
  intro s0 id opts runs now t procs tok2 hp htok
  cases ha : runs.analysisRun with
  | ok a =>
    refine ⟨_, processJob_ok_store s0 id opts runs a now t procs hp ha, rfl,
      hrep _ _ _ _ (processJob_ok_store s0 id opts runs a now t procs hp ha), ?_⟩
    intro e he heq
    have hmem := processJob_ok_event_tokens s0 id opts runs a now t procs hp ha
      e.1 (List.mem_map_of_mem Prod.fst he)
    rw [heq] at hmem
    exact htok hmem
  | err m =>
    refine ⟨_, processJob_err_store s0 id opts runs m now t procs hp ha, rfl,
      hrep _ _ _ _ (processJob_err_store s0 id opts runs m now t procs hp ha), ?_⟩
    intro e he heq
    have hmem := (processJob_err_events s0 id opts runs m now t procs hp ha e he).1
    rw [heq] at hmem
    exact htok hmem

/-- Witness for C8: replay of an existing record, and a post-run
subscription that sees the terminal snapshot with no run events. -/
theorem c8_subscribe_replay_witness :
    (subscribeProgress exStore "j1" 4).2 = [(4, exJob)] ∧
    ∃ fj,
      getJob (runTarget ⟨[], []⟩ "j3" ⟨none, none, none, none, false, false, false⟩
          allFailRuns 0 5 []).1.store "j3" = some fj ∧
      isTerminal fj.status = true ∧
      (subscribeProgress (runTarget ⟨[], []⟩ "j3" ⟨none, none, none, none, false, false, false⟩
          allFailRuns 0 5 []).1.store "j3" 4).2 = [(4, fj)] ∧
      ∀ e ∈ (runTarget ⟨[], []⟩ "j3" ⟨none, none, none, none, false, false, false⟩
          allFailRuns 0 5 []).2, e.1 ≠ 4 :=
  ⟨c8_subscribe_replay.1 exStore "j1" 4 exJob rfl,
   c8_subscribe_replay.2 ⟨[], []⟩ "j3" ⟨none, none, none, none, false, false, false⟩
     allFailRuns 0 5 [] 4 (by simp) (by simp [subsOf, lookupA])⟩


/-! ### Reaper lemmas -/

theorem lookupA_mem {α : Type} {l : List (String × α)} {k : String} {v : α}
    (h : lookupA l k = some v) : (k, v) ∈ l := by
  induction l with
  | nil => simp [lookupA] at h
  | cons e rest ih =>
    obtain ⟨k2, w⟩ := e
    by_cases h2 : k2 = k
    · subst h2
      simp [lookupA] at h
      simp [h]
    · simp only [lookupA, h2, if_false] at h
      exact List.mem_cons_of_mem _ (ih h)

theorem nodup_key_val_eq {α : Type} {l : List (String × α)} {k : String}
    {v1 v2 : α} (hnd : (l.map Prod.fst).Nodup)
    (h1 : (k, v1) ∈ l) (h2 : (k, v2) ∈ l) : v1 = v2 := by
  induction l with
  | nil => simp at h1
  | cons e rest ih =>
    simp only [List.map_cons, List.nodup_cons] at hnd
    rcases List.mem_cons.mp h1 with he1 | he1 <;>
      rcases List.mem_cons.mp h2 with he2 | he2
    · exact congrArg Prod.snd (he1.trans he2.symm)
    · exfalso
      apply hnd.1
      rw [← he1]
      exact List.mem_map.mpr ⟨(k, v2), he2, rfl⟩
    · exfalso
      apply hnd.1
      rw [← he2]
      exact List.mem_map.mpr ⟨(k, v1), he1, rfl⟩
    · exact ih hnd.2 he1 he2

theorem lookupA_eq_none_of_not_mem {α : Type} {l : List (String × α)} {k : String}
    (h : k ∉ l.map Prod.fst) : lookupA l k = none := by
  induction l with
  | nil => rfl
  | cons e rest ih =>
    simp only [List.map_cons, List.mem_cons, not_or] at h
    obtain ⟨k2, w⟩ := e
    simp only [lookupA]
    rw [if_neg (fun hh => h.1 hh.symm)]
    exact ih h.2

theorem lookupA_filter_none {α : Type} {l : List (String × α)} {k : String}
    {p : String × α → Bool} (h : lookupA l k = none) :
    lookupA (l.filter p) k = none := by
  induction l with
  | nil => rfl
  | cons e rest ih =>
    obtain ⟨k2, w⟩ := e
    by_cases h2 : k2 = k
    · subst h2
      simp [lookupA] at h
    · simp only [lookupA, h2, if_false] at h
      by_cases hp : p (k2, w) = true
      · simp only [List.filter_cons_of_pos hp, lookupA, h2, if_false]
        exact ih h
      · rw [List.filter_cons_of_neg (by simpa using hp)]
        exact ih h

theorem lookupA_filter_some {α : Type} {l : List (String × α)} {k : String} {v : α}
    {p : String × α → Bool} (hnd : (l.map Prod.fst).Nodup)
    (h : lookupA l k = some v) :
    lookupA (l.filter p) k = if p (k, v) = true then some v else none := by
  induction l with
  | nil => simp [lookupA] at h
  | cons e rest ih =>
    obtain ⟨k2, w⟩ := e
    simp only [List.map_cons, List.nodup_cons] at hnd
    by_cases h2 : k2 = k
    · subst h2
      simp only [lookupA, if_true, eq_self_iff_true, Option.some.injEq] at h
      subst h
      by_cases hp : p (k2, w) = true
      · simp [List.filter_cons_of_pos hp, lookupA, hp]
      · rw [List.filter_cons_of_neg (by simpa using hp)]
        rw [if_neg hp]
        exact lookupA_filter_none (lookupA_eq_none_of_not_mem hnd.1)
    · simp only [lookupA, h2, if_false] at h
      by_cases hp : p (k2, w) = true
      · simp only [List.filter_cons_of_pos hp, lookupA, h2, if_false]
        exact ih hnd.2 h
      · rw [List.filter_cons_of_neg (by simpa using hp)]
        exact ih hnd.2 h

theorem lookupA_filter_key_false {α : Type} {l : List (String × α)} {k : String}
    {p : String × α → Bool} (h : ∀ v, p (k, v) = false) :
    lookupA (l.filter p) k = none := by
  induction l with
  | nil => rfl
  | cons e rest ih =>
    obtain ⟨k2, w⟩ := e
    by_cases h2 : k2 = k
    · subst h2
      rw [List.filter_cons_of_neg (by simp [h w])]
      exact ih
    · by_cases hp : p (k2, w) = true
      · simp only [List.filter_cons_of_pos hp, lookupA, h2, if_false]
        exact ih
      · rw [List.filter_cons_of_neg (by simpa using hp)]
        exact ih

/-- Keys deleted by one reaper pass over an entry snapshot. -/
def expiredIds (now ttl : Nat) (entries : List (String × Job)) : List String :=
  (entries.filter (fun e => isExpired now ttl e.2)).map Prod.fst

theorem cleanupList_cons_pos (now ttl : Nat) (x : String × Job)
    (rest : List (String × Job)) (s : Store) (hx : isExpired now ttl x.2 = true) :
    cleanupList now ttl (x :: rest) s =
      ((cleanupList now ttl rest (deleteJob s x.1).1).1,
        (cleanupList now ttl rest (deleteJob s x.1).1).2 + 1) := by
  simp [cleanupList, hx]

theorem cleanupList_cons_neg (now ttl : Nat) (x : String × Job)
    (rest : List (String × Job)) (s : Store) (hx : isExpired now ttl x.2 = false) :
    cleanupList now ttl (x :: rest) s = cleanupList now ttl rest s := by
  simp [cleanupList, hx]

theorem expiredIds_cons_pos (now ttl : Nat) (x : String × Job)
    (rest : List (String × Job)) (hx : isExpired now ttl x.2 = true) :
    expiredIds now ttl (x :: rest) = x.1 :: expiredIds now ttl rest := by
  simp [expiredIds, hx]

theorem expiredIds_cons_neg (now ttl : Nat) (x : String × Job)
    (rest : List (String × Job)) (hx : isExpired now ttl x.2 = false) :
    expiredIds now ttl (x :: rest) = expiredIds now ttl rest := by
  simp [expiredIds, hx]

theorem cleanupList_jobs (now ttl : Nat) :
    ∀ (entries : List (String × Job)) (s : Store),
      (cleanupList now ttl entries s).1.jobs =
        s.jobs.filter (fun e => decide (e.1 ∉ expiredIds now ttl entries)) := by
  intro entries
  induction entries with
  | nil =>
    intro s
    simp [cleanupList, expiredIds]
  | cons x rest ih =>
    intro s
    by_cases hx : isExpired now ttl x.2 = true
    · rw [cleanupList_cons_pos now ttl x rest s hx]
      rw [ih]
      have hdel : ((deleteJob s x.1).1).jobs = s.jobs.filter (fun e => decide (e.1 ≠ x.1)) := by
        simp [deleteJob, removeA]
      rw [hdel, List.filter_filter, expiredIds_cons_pos now ttl x rest hx]
      apply List.filter_congr
      intro e _
      by_cases h1 : e.1 = x.1
      · simp [h1]
      · simp [h1, List.mem_cons]
    · have hx2 : isExpired now ttl x.2 = false := by simpa using hx
      rw [cleanupList_cons_neg now ttl x rest s hx2, ih,
        expiredIds_cons_neg now ttl x rest hx2]

theorem cleanupList_subs (now ttl : Nat) :
    ∀ (entries : List (String × Job)) (s : Store),
      (cleanupList now ttl entries s).1.subs =
        s.subs.filter (fun e => decide (e.1 ∉ expiredIds now ttl entries)) := by
  intro entries
  induction entries with
  | nil =>
    intro s
    simp [cleanupList, expiredIds]
  | cons x rest ih =>
    intro s
    by_cases hx : isExpired now ttl x.2 = true
    · rw [cleanupList_cons_pos now ttl x rest s hx]
      rw [ih]
      have hdel : ((deleteJob s x.1).1).subs = s.subs.filter (fun e => decide (e.1 ≠ x.1)) := by
        simp [deleteJob, removeA]
      rw [hdel, List.filter_filter, expiredIds_cons_pos now ttl x rest hx]
      apply List.filter_congr
      intro e _
      by_cases h1 : e.1 = x.1
      · simp [h1]
      · simp [h1, List.mem_cons]
    · have hx2 : isExpired now ttl x.2 = false := by simpa using hx
      rw [cleanupList_cons_neg now ttl x rest s hx2, ih,
        expiredIds_cons_neg now ttl x rest hx2]

theorem cleanupList_count (now ttl : Nat) :
    ∀ (entries : List (String × Job)) (s : Store),
      (cleanupList now ttl entries s).2 =
        (entries.filter (fun e => isExpired now ttl e.2)).length := by
  intro entries
  induction entries with
  | nil => intro s; rfl
  | cons x rest ih =>
    intro s
    by_cases hx : isExpired now ttl x.2 = true
    · rw [cleanupList_cons_pos now ttl x rest s hx]
      simp [hx, ih]
    · have hx2 : isExpired now ttl x.2 = false := by simpa using hx
      rw [cleanupList_cons_neg now ttl x rest s hx2]
      simp [hx2, ih]


/-- C9: one reaper pass deletes a record exactly when the job is terminal
and its age `now − createdAt` strictly exceeds the TTL; the return value
counts the removed records; a deleted job's subscriber set is torn down
and Get misses afterwards; unexpired and non-terminal jobs survive with
their record intact. -/
theorem c9_reaper (s : Store) (now ttl : Nat)
    (hnd : (s.jobs.map Prod.fst).Nodup) :
    (cleanupOldJobs s now ttl).2 =
      (s.jobs.filter (fun e => isExpired now ttl e.2)).length ∧
    ∀ id j, getJob s id = some j →
      (isExpired now ttl j = true →
        getJob (cleanupOldJobs s now ttl).1 id = none ∧
        subsOf (cleanupOldJobs s now ttl).1 id = []) ∧
      (isExpired now ttl j = false →
        getJob (cleanupOldJobs s now ttl).1 id = some j) ∧
      (isTerminal j.status = false →
        getJob (cleanupOldJobs s now ttl).1 id = some j) := by
  have hjobs : (cleanupOldJobs s now ttl).1.jobs =
      s.jobs.filter (fun e => decide (e.1 ∉ expiredIds now ttl s.jobs)) :=
    cleanupList_jobs now ttl s.jobs s
  have hsubs : (cleanupOldJobs s now ttl).1.subs =
      s.subs.filter (fun e => decide (e.1 ∉ expiredIds now ttl s.jobs)) :=
    cleanupList_subs now ttl s.jobs s
  have hcount : (cleanupOldJobs s now ttl).2 =
      (s.jobs.filter (fun e => isExpired now ttl e.2)).length :=
    cleanupList_count now ttl s.jobs s
  refine ⟨hcount, ?_⟩
  intro id j hget
  have hmemEntry : (id, j) ∈ s.jobs := lookupA_mem hget
  have hIdExp : id ∈ expiredIds now ttl s.jobs ↔ isExpired now ttl j = true := by
    constructor
    · intro hin
      obtain ⟨e, he, heq⟩ := List.mem_map.mp hin
      obtain ⟨k0, j0⟩ := e
      obtain ⟨he2, hexp⟩ := List.mem_filter.mp he
      simp only at heq
      subst heq
      have hj : j0 = j := nodup_key_val_eq hnd he2 hmemEntry
      rw [← hj]
      simpa using hexp
    · intro hexp
      exact List.mem_map.mpr
        ⟨(id, j), List.mem_filter.mpr ⟨hmemEntry, by simpa using hexp⟩, rfl⟩
  have hmain : isExpired now ttl j = false →
      getJob (cleanupOldJobs s now ttl).1 id = some j := by
    intro hnexp
    have hnin : id ∉ expiredIds now ttl s.jobs := by
      intro hin
      rw [hIdExp.mp hin] at hnexp
      cases hnexp
    show lookupA (cleanupOldJobs s now ttl).1.jobs id = some j
    rw [hjobs, lookupA_filter_some hnd hget]
    simp [hnin]
  refine ⟨?_, hmain, ?_⟩
  · intro hexp
    have hin : id ∈ expiredIds now ttl s.jobs := hIdExp.mpr hexp
    constructor
    · show lookupA (cleanupOldJobs s now ttl).1.jobs id = none
      rw [hjobs]
      exact lookupA_filter_key_false (fun v => by simp [hin])
    · show subsOf (cleanupOldJobs s now ttl).1 id = []
      unfold subsOf
      rw [hsubs, lookupA_filter_key_false (fun v => by simp [hin])]
  · intro hterm
    apply hmain
    simp [isExpired, hterm]

/-- A terminal job created at time 0. -/
def c9OldJob : Job :=
  { id := "old"
    status := JobStatus.completed
    progress := ⟨StepStatus.done, StepStatus.done, StepStatus.done, StepStatus.done⟩
    createdAt := 0
    updatedAt := 100
    completedAt := some 100
    error := none
    result := none
    options := ⟨none, none, none, none, false, false, false⟩ }

/-- A still-running job created at time 0. -/
def c9LiveJob : Job :=
  { id := "live"
    status := JobStatus.processing
    progress := ⟨StepStatus.processing, StepStatus.pending, StepStatus.pending, StepStatus.pending⟩
    createdAt := 0
    updatedAt := 100
    completedAt := none
    error := none
    result := none
    options := ⟨none, none, none, none, false, false, false⟩ }

/-- Store with one reapable and one live job, each with a subscriber. -/
def c9Store : Store :=
  ⟨[("old", c9OldJob), ("live", c9LiveJob)], [("old", [1]), ("live", [2])]⟩

/-- Witness for C9: at `now = 5000` with TTL 1000 ms the pass removes
exactly the terminal job, tears down its subscribers, and keeps the
running job. -/
theorem c9_reaper_witness :
    (cleanupOldJobs c9Store 5000 1000).2 = 1 ∧
    getJob (cleanupOldJobs c9Store 5000 1000).1 "old" = none ∧
    subsOf (cleanupOldJobs c9Store 5000 1000).1 "old" = [] ∧
    getJob (cleanupOldJobs c9Store 5000 1000).1 "live" = some c9LiveJob := by
  have h := c9_reaper c9Store 5000 1000 (by decide)
  have hold := h.2 "old" c9OldJob rfl
  have hlive := h.2 "live" c9LiveJob rfl
  refine ⟨?_, (hold.1 (by decide)).1, (hold.1 (by decide)).2, hlive.2.2 (by decide)⟩
  rw [h.1]
  decide

end PkgGen
